import Mathlib

/-!
Verification of the TASC screening backend (tasc_main.py / models.py /
schemas.py, plus the legacy revision main.py).

The data model is the SQLAlchemy schema of models.py restricted to the
fields the screening endpoints touch; the operations are shallow
embeddings of the FastAPI handlers of tasc_main.py (and, in the
`Legacy` namespace, of main.py).  The database is a record of lists of
rows; primary keys are `Nat`; nullable columns are `Option`; timestamps
are `Nat`.  Each handler returns the post-commit database paired with
an `Except` carrying either the HTTP error it raises or its response
body.
-/

/-- models.ApplicationStatus. -/
inductive ApplicationStatus
  | SOURCED
  | SCREENING_PASSED
  | SCREENING_FAILED
  | RANKED
  | REJECTED
deriving DecidableEq, Repr

/-- `.value` of the ApplicationStatus enum member, as serialised by
`complete_session`. -/
def ApplicationStatus.value : ApplicationStatus → String
  | .SOURCED => "SOURCED"
  | .SCREENING_PASSED => "SCREENING_PASSED"
  | .SCREENING_FAILED => "SCREENING_FAILED"
  | .RANKED => "RANKED"
  | .REJECTED => "REJECTED"

/-- models.InterviewStatus (session lifecycle status). -/
inductive InterviewStatus
  | PENDING
  | IN_PROGRESS
  | COMPLETED
deriving DecidableEq, Repr

/-- models.InterviewResult (session outcome). -/
inductive InterviewResult
  | SELECTED
  | REJECTED
  | ON_HOLD
deriving DecidableEq, Repr

/-- models.Job, restricted to the columns read by the screening flow. -/
structure Job where
  id : Nat
  title : String
deriving DecidableEq, Repr

/-- models.Candidate, restricted to the columns read by the screening
flow; `full_name` and `email` are nullable in the schema. -/
structure Candidate where
  id : Nat
  full_name : Option String
  email : Option String
deriving DecidableEq, Repr

/-- models.Application. -/
structure Application where
  id : Nat
  job_id : Nat
  candidate_id : Nat
  status : ApplicationStatus
deriving DecidableEq, Repr

/-- models.QuestionSet. -/
structure QuestionSet where
  id : Nat
  job_id : Nat
  name : String
deriving DecidableEq, Repr

/-- models.Question: `options` is a nullable Text column holding a
comma-separated encoding, `question_type` a String column. -/
structure Question where
  id : Nat
  set_id : Nat
  question_text : String
  options : Option String
  question_type : String
  is_required : Bool
deriving DecidableEq, Repr

/-- models.ResponseSession. -/
structure ResponseSession where
  id : Nat
  application_id : Nat
  set_id : Nat
  status : InterviewStatus
  result : Option InterviewResult
  completed_at : Option Nat
deriving DecidableEq, Repr

/-- models.Response: `answer` is a nullable Text column. -/
structure Response where
  id : Nat
  session_id : Nat
  question_id : Nat
  answer : Option String
deriving DecidableEq, Repr

/-- schemas.ResponseCreate: the request body of `submit_response`;
`answer` is Optional. -/
structure ResponseCreate where
  question_id : Nat
  answer : Option String
deriving DecidableEq, Repr

/-- schemas.TakeTestPayload: the response body of `get_test`. -/
structure TakeTestPayload where
  job_title : String
  response_session_id : Nat
  application_id : Nat
  questions : List Question
deriving DecidableEq, Repr

/-- The errors the embedded handlers surface: `notFound` and
`badRequest` are raised HTTPExceptions (404 / 400); `internal` stands
for an uncaught Python exception (e.g. AttributeError), which FastAPI
turns into a 500. -/
inductive ApiError
  | notFound (detail : String)
  | badRequest (detail : String)
  | internal
deriving DecidableEq, Repr

/-- The database: one list of rows per table, plus a counter supplying
fresh primary keys (modelling uuid4). -/
structure DB where
  jobs : List Job
  candidates : List Candidate
  applications : List Application
  question_sets : List QuestionSet
  questions : List Question
  sessions : List ResponseSession
  responses : List Response
  next_id : Nat
deriving DecidableEq, Repr

/-- ORM relationship QuestionSet.questions: the questions whose
`set_id` points at the set. -/
def questionsOf (db : DB) (setId : Nat) : List Question :=
  db.questions.filter (fun q => q.set_id == setId)

/-- ORM relationship ResponseSession.responses. -/
def responsesOf (db : DB) (sid : Nat) : List Response :=
  db.responses.filter (fun r => r.session_id == sid)

/-- Primary-key lookup of a session. -/
def findSession (db : DB) (sid : Nat) : Option ResponseSession :=
  db.sessions.find? (fun s => s.id == sid)

/-- ORM relationship ResponseSession.application (None if the foreign
key dangles). -/
def findApplication (db : DB) (aid : Nat) : Option Application :=
  db.applications.find? (fun a => a.id == aid)

/-- ORM relationship ResponseSession.question_set. -/
def findQuestionSet (db : DB) (setId : Nat) : Option QuestionSet :=
  db.question_sets.find? (fun qs => qs.id == setId)

/-- Primary-key lookup of a job. -/
def findJob (db : DB) (jid : Nat) : Option Job :=
  db.jobs.find? (fun j => j.id == jid)

instance {ε α : Type} [DecidableEq ε] [DecidableEq α] : DecidableEq (Except ε α)
  | .ok a, .ok b =>
    if h : a = b then .isTrue (by rw [h]) else .isFalse (by intro hc; cases hc; exact h rfl)
  | .ok _, .error _ => .isFalse (by intro hc; cases hc)
  | .error _, .ok _ => .isFalse (by intro hc; cases hc)
  | .error e, .error f =>
    if h : e = f then .isTrue (by rw [h]) else .isFalse (by intro hc; cases hc; exact h rfl)

/-- Python's substring test `needle in hay` on the underlying
character lists. -/
def charsIn (needle : List Char) : List Char → Bool
  | [] => needle.isEmpty
  | c :: rest => needle.isPrefixOf (c :: rest) || charsIn needle rest

/-- Python's `needle in hay` for strings. -/
def strIn (needle hay : String) : Bool :=
  charsIn needle.toList hay.toList

/-- Python str.lower() (ASCII range, which covers the stored answer
tokens). -/
def lowerStr (s : String) : String :=
  ⟨s.data.map Char.toLower⟩

/-- Python's str.split(',') on character lists: `cur` is the piece
accumulated so far (reversed). -/
def splitComma : List Char → List Char → List (List Char)
  | [], cur => [cur.reverse]
  | c :: rest, cur =>
    if c == ',' then cur.reverse :: splitComma rest []
    else splitComma rest (c :: cur)

/-- Python's str.strip(): drop leading and trailing whitespace. -/
def trimChars (l : List Char) : List Char :=
  ((l.dropWhile Char.isWhitespace).reverse.dropWhile Char.isWhitespace).reverse

/-- tasc_main.complete_session, lines 475-478: the filter selecting the
questions the completion logic evaluates ("yes/no questions"):
`q.question_type == 'mcq_single' and q.options and
 all(opt in q.options for opt in ['Yes', 'No'])`.
Note `q.options` is the raw comma-separated string, so `opt in
q.options` is a substring test, not an option-set membership test. -/
def isGating (q : Question) : Bool :=
  q.question_type == "mcq_single" &&
    (match q.options with
     | none => false
     | some s => s != "" && strIn "Yes" s && strIn "No" s)

/-- The list of questions `complete_session` evaluates for a given
question set (`yes_no_questions` in the source). -/
def yesNoQuestions (db : DB) (setId : Nat) : List Question :=
  (questionsOf db setId).filter isGating

/-- schemas.Question.transform_options_from_orm: the canonical option
tokens of a question's options encoding
(`[o.strip() for o in v.split(',') if o.strip()]`). -/
def optionTokens (s : String) : List String :=
  ((splitComma s.data []).map (fun p => (⟨trimChars p⟩ : String))).filter (fun t => t != "")

/-- Whether a token list is exactly the two-element set containing
"Yes" and "No" (case-sensitive). -/
def exactYesNoSet (toks : List String) : Bool :=
  toks.contains "Yes" && toks.contains "No" &&
    toks.all (fun t => t == "Yes" || t == "No")

/-- Modelled from the spec: the spec's definition of a gating question
("kind is SINGLE_CHOICE and whose option set is exactly
 set-of Yes and No, case-sensitive token match"), stated over the
option tokens produced by `transform_options_from_orm`.  This is the
spec-side definition to be compared with `isGating`, the one the code
actually uses. -/
def specGatingQuestion (q : Question) : Bool :=
  q.question_type == "mcq_single" &&
    (match q.options with
     | none => false
     | some s => exactYesNoSet (optionTokens s))

/-- tasc_main.get_test (GET /take-test/session_id): 404 when the
session, its application or its question set cannot be resolved;
otherwise flips PENDING to IN_PROGRESS (committing) and builds the
payload; resolving the job happens only while building the payload, so
a dangling job reference raises after the status flip is committed. -/
def get_test (db : DB) (sid : Nat) : DB × Except ApiError TakeTestPayload :=
  match findSession db sid with
  | none => (db, .error (.notFound "Test session not found or is incomplete."))
  | some s =>
    match findApplication db s.application_id, findQuestionSet db s.set_id with
    | some a, some _ =>
      let db' :=
        if s.status == InterviewStatus.PENDING then
          { db with sessions := db.sessions.map (fun t =>
              if t.id == s.id then { t with status := InterviewStatus.IN_PROGRESS } else t) }
        else db
      match findJob db a.job_id with
      | none => (db', .error .internal)
      | some j =>
        (db', .ok { job_title := j.title
                    response_session_id := s.id
                    application_id := a.id
                    questions := questionsOf db s.set_id })
    | _, _ => (db, .error (.notFound "Test session not found or is incomplete."))

/-- tasc_main.submit_response (POST /response-sessions/session_id/responses):
checks only that the session exists, then inserts a new Response row —
no status guard, no answer validation, no upsert. -/
def submit_response (db : DB) (sid : Nat) (rc : ResponseCreate) :
    DB × Except ApiError Response :=
  match findSession db sid with
  | none => (db, .error (.notFound "Session not found"))
  | some _ =>
    let r : Response :=
      { id := db.next_id, session_id := sid
        question_id := rc.question_id, answer := rc.answer }
    ({ db with responses := db.responses ++ [r], next_id := db.next_id + 1 }, .ok r)

/-- The completion loop of tasc_main.complete_session, lines 480-484:
walk the yes/no questions in order; a missing response or a non-"yes"
answer fails the session and breaks; a stored response whose `answer`
is null raises AttributeError (`None.lower()`), modelled as `.error ()`. -/
def evalGates (rs : List Response) : List Question → Except Unit Bool
  | [] => .ok true
  | q :: qs =>
    match rs.find? (fun r => r.question_id == q.id) with
    | none => .ok false
    | some r =>
      match r.answer with
      | none => .error ()
      | some a => if lowerStr a == "yes" then evalGates rs qs else .ok false

/-- tasc_main.complete_session (POST /response-sessions/session_id/complete):
404 when the session or its application is missing; a missing question
set raises (attribute access on None) before any write; otherwise it
evaluates the yes/no questions and — whatever the session's current
status — sets Application.status, Session.status := COMPLETED,
Session.result and Session.completed_at := now, returning the new
application status value. -/
def complete_session (db : DB) (now : Nat) (sid : Nat) :
    DB × Except ApiError String :=
  match findSession db sid with
  | none => (db, .error (.notFound "Session or related Application not found"))
  | some s =>
    match findApplication db s.application_id with
    | none => (db, .error (.notFound "Session or related Application not found"))
    | some a =>
      match findQuestionSet db s.set_id with
      | none => (db, .error .internal)
      | some _ =>
        match evalGates (responsesOf db sid) (yesNoQuestions db s.set_id) with
        | .error _ => (db, .error .internal)
        | .ok all_passed =>
          let new_status :=
            if all_passed then ApplicationStatus.SCREENING_PASSED
            else ApplicationStatus.SCREENING_FAILED
          let db' :=
            { db with
              applications := db.applications.map (fun x =>
                if x.id == a.id then { x with status := new_status } else x)
              sessions := db.sessions.map (fun t =>
                if t.id == s.id then
                  { t with
                    status := InterviewStatus.COMPLETED
                    result := some (if all_passed then InterviewResult.SELECTED
                                    else InterviewResult.REJECTED)
                    completed_at := some now }
                else t) }
          (db', .ok new_status.value)

/-- Insertion into a Python dict rendered as an association list:
an existing key keeps its position and gets the new value, a new key
is appended (dicts preserve insertion order). -/
def dictInsert : List (String × String) → String → String → List (String × String)
  | [], k, v => [(k, v)]
  | (k', v') :: t, k, v =>
    if k' == k then (k, v) :: t else (k', v') :: dictInsert t k v

/-- Insertion of the fresh PENDING ResponseSession the batch loop
creates for one application. -/
def addSession (db : DB) (appId qsetId : Nat) : DB :=
  { db with
    sessions := db.sessions ++
      [{ id := db.next_id, application_id := appId, set_id := qsetId
         status := InterviewStatus.PENDING, result := none, completed_at := none }]
    next_id := db.next_id + 1 }

/-- `application.candidate.full_name or "Candidate"` of the batch
loop's email call. -/
def nameOr (fn : Option String) : String :=
  match fn with
  | some n => if n == "" then "Candidate" else n
  | none => "Candidate"

/-- The per-application loop of tasc_main.send_to_all_sourced_candidates
(step 3): a missing candidate row or missing/empty email records a
failure and skips session creation; otherwise a PENDING session is
created and the email collaborator's status string is recorded under
the candidate's email. -/
def sourcedLoop (emailFn : String → String → Nat → String) (qsetId : Nat) :
    List Application → DB → List (String × String) → DB × List (String × String)
  | [], db, acc => (db, acc)
  | a :: rest, db, acc =>
    match db.candidates.find? (fun c => c.id == a.candidate_id) with
    | none =>
      sourcedLoop emailFn qsetId rest db
        (dictInsert acc ("AppID: " ++ toString a.id)
          "Failed: Missing candidate data or email address.")
    | some c =>
      match c.email with
      | none =>
        sourcedLoop emailFn qsetId rest db
          (dictInsert acc ("AppID: " ++ toString a.id)
            "Failed: Missing candidate data or email address.")
      | some e =>
        if e == "" then
          sourcedLoop emailFn qsetId rest db
            (dictInsert acc ("AppID: " ++ toString a.id)
              "Failed: Missing candidate data or email address.")
        else
          sourcedLoop emailFn qsetId rest (addSession db a.id qsetId)
            (dictInsert acc e (emailFn (nameOr c.full_name) e db.next_id))

/-- The SOURCED applications of a job (step 1 of
send_to_all_sourced_candidates). -/
def sourcedApps (db : DB) (jobId : Nat) : List Application :=
  db.applications.filter (fun a =>
    a.job_id == jobId && a.status == ApplicationStatus.SOURCED)

/-- tasc_main.send_to_all_sourced_candidates
(POST /jobs/job_id/send-to-sourced): 404 when there is no SOURCED
application or no "Prescreening" question set; otherwise runs the
per-application loop and returns the per-candidate status dict.  The
email collaborator is the parameter `emailFn`, returning the status
string send_prescreening_email would ("Sent" on success). -/
def send_to_all_sourced_candidates (db : DB)
    (emailFn : String → String → Nat → String) (jobId : Nat) :
    DB × Except ApiError (List (String × String)) :=
  let apps := sourcedApps db jobId
  if apps.isEmpty then
    (db, .error (.notFound "No SOURCED candidates found for this job to send tests to."))
  else
    match db.question_sets.find? (fun qs =>
        qs.job_id == jobId && qs.name == "Prescreening") with
    | none => (db, .error (.notFound "Prescreening question set not found for this job."))
    | some qset =>
      let res := sourcedLoop emailFn qset.id apps db []
      (res.1, .ok res.2)

namespace Legacy

/-- models.QuestionType of the legacy revision (main.py): the enum
members main.py compares against (TEXT, MCQ_SINGLE, MCQ_MULTIPLE). -/
inductive QuestionType
  | TEXT
  | MCQ_SINGLE
  | MCQ_MULTIPLE
deriving DecidableEq, Repr

/-- models.QuestionOption of the legacy revision: an option row with
its own primary key and display text. -/
structure QuestionOption where
  id : Nat
  option_text : String
deriving DecidableEq, Repr

/-- models.Question of the legacy revision, restricted to what
main.py's submit_response reads: the kind and the option rows. -/
structure Question where
  id : Nat
  question_type : QuestionType
  options : List QuestionOption
deriving DecidableEq, Repr

/-- The legacy schemas.ResponseCreate, as used by main.py's
submit_response; an absent selected_option_ids and an empty list are
both falsy in Python, so the model uses one empty list. -/
structure ResponseCreate where
  session_id : Nat
  candidate_id : Nat
  question_id : Nat
  response_text : Option String
  selected_option_ids : List Nat
deriving DecidableEq, Repr

/-- The legacy models.Response row (selected options stored through
the association table as their ids). -/
structure Response where
  id : Nat
  session_id : Nat
  candidate_id : Nat
  question_id : Nat
  response_text : Option String
  selected_option_ids : List Nat
deriving DecidableEq, Repr

/-- The slice of the legacy database submit_response touches. -/
structure DB where
  questions : List Question
  responses : List Response
  next_id : Nat
deriving DecidableEq, Repr

/-- main.py submit_response (POST /submit-response), lines 599-639:
404 when the question is missing; TEXT answers are stored as free
text; for choice questions the submitted option ids must be non-empty
and a subset of the question's option ids, otherwise a 400 is raised
and nothing is stored. -/
def submit_response (db : DB) (rc : ResponseCreate) :
    DB × Except ApiError Response :=
  match db.questions.find? (fun q => q.id == rc.question_id) with
  | none => (db, .error (.notFound "Question not found"))
  | some q =>
    if q.question_type == QuestionType.TEXT then
      let r : Response :=
        { id := db.next_id, session_id := rc.session_id
          candidate_id := rc.candidate_id, question_id := rc.question_id
          response_text := rc.response_text, selected_option_ids := [] }
      ({ db with responses := db.responses ++ [r], next_id := db.next_id + 1 }, .ok r)
    else
      if rc.selected_option_ids.isEmpty then
        (db, .error (.badRequest "Selected option IDs are required."))
      else
        if rc.selected_option_ids.all
            (fun i => (q.options.map (fun o => o.id)).contains i) then
          let r : Response :=
            { id := db.next_id, session_id := rc.session_id
              candidate_id := rc.candidate_id, question_id := rc.question_id
              response_text := none, selected_option_ids := rc.selected_option_ids }
          ({ db with responses := db.responses ++ [r], next_id := db.next_id + 1 }, .ok r)
        else
          (db, .error (.badRequest "Invalid option ID provided."))

end Legacy

/-- A candidate-flow operation on the store: the three endpoints of
tasc_main.py's candidate flow. -/
inductive Op
  | fetch (sid : Nat)
  | submit (sid : Nat) (rc : ResponseCreate)
  | finish (now : Nat) (sid : Nat)
deriving DecidableEq, Repr

/-- The database after one candidate-flow request (its committed
effect, whether or not the request also returned an error). -/
def applyOp (db : DB) : Op → DB
  | .fetch sid => (get_test db sid).1
  | .submit sid rc => (submit_response db sid rc).1
  | .finish now sid => (complete_session db now sid).1

/-- The database after a sequence of candidate-flow requests. -/
def runOps (db : DB) (ops : List Op) : DB :=
  ops.foldl applyOp db

/-- Position of a lifecycle status along PENDING, IN_PROGRESS,
COMPLETED. -/
def statusRank : InterviewStatus → Nat
  | .PENDING => 0
  | .IN_PROGRESS => 1
  | .COMPLETED => 2

/-- One session only ever moves forward: same id, non-decreasing
status, and COMPLETED stays COMPLETED. -/
def SessionStep (s s' : ResponseSession) : Prop :=
  s'.id = s.id ∧ statusRank s.status ≤ statusRank s'.status ∧
    (s.status = InterviewStatus.COMPLETED → s'.status = InterviewStatus.COMPLETED)

/-- The sessions' primary keys are distinct (the table's primary-key
constraint). -/
def IdsNodup (db : DB) : Prop :=
  (db.sessions.map (fun s => s.id)).Nodup

instance (db : DB) : Decidable (IdsNodup db) := by
  unfold IdsNodup; infer_instance

/-- A session's result stays null until it is COMPLETED. -/
def ResultInv (db : DB) : Prop :=
  ∀ s ∈ db.sessions, s.result ≠ none → s.status = InterviewStatus.COMPLETED

instance (db : DB) : Decidable (ResultInv db) := by
  unfold ResultInv; infer_instance

/-- Whether one stored response carries a non-null answer that
lower-cases to "yes". -/
def answerYes (r : Response) : Bool :=
  (r.answer.map (fun a => lowerStr a == "yes")).getD false

/-- The verdict of the completion loop on one question, for a fixed
response list: the first stored response must exist, carry a non-null
answer, and that answer must lower-case to "yes". -/
def gatePass (rs : List Response) (q : Question) : Bool :=
  ((rs.find? (fun r => r.question_id == q.id)).map answerYes).getD false

theorem evalGates_eq_all (rs : List Response)
    (hnn : ∀ r ∈ rs, r.answer ≠ none) :
    ∀ qs : List Question, evalGates rs qs = .ok (qs.all (gatePass rs))
  | [] => rfl
  | q :: qs => by
    have ih := evalGates_eq_all rs hnn qs
    simp only [evalGates, List.all_cons]
    cases hfind : rs.find? (fun r => r.question_id == q.id) with
    | none => simp [gatePass, hfind]
    | some r =>
      have hr : r ∈ rs := List.mem_of_find?_eq_some hfind
      cases hans : r.answer with
      | none => exact absurd hans (hnn r hr)
      | some a =>
        simp only [hans, gatePass, hfind, Option.map_some', Option.getD_some, answerYes]
        by_cases hy : lowerStr a = "yes"
        · simp [hy, ih]
        · simp [hy]

theorem gatePass_iff_exists (rs : List Response) (q : Question)
    (hnd : (rs.map (fun r => r.question_id)).Nodup) :
    gatePass rs q = true ↔
      ∃ r ∈ rs, r.question_id = q.id ∧ ∃ a, r.answer = some a ∧ lowerStr a = "yes" := by
  constructor
  · intro h
    unfold gatePass at h
    cases hfind : rs.find? (fun r => r.question_id == q.id) with
    | none => rw [hfind] at h; simp at h
    | some r =>
      rw [hfind] at h
      simp only [Option.map_some', Option.getD_some, answerYes] at h
      have hr : r ∈ rs := List.mem_of_find?_eq_some hfind
      have hq : r.question_id = q.id := by
        have := List.find?_some hfind
        simpa using this
      cases hans : r.answer with
      | none => rw [hans] at h; simp at h
      | some a =>
        rw [hans] at h
        exact ⟨r, hr, hq, a, hans, by simpa using h⟩
  · rintro ⟨r, hr, hq, a, hans, hy⟩
    unfold gatePass
    cases hfind : rs.find? (fun x => x.question_id == q.id) with
    | none =>
      rw [List.find?_eq_none] at hfind
      exact absurd (by simpa using hq) (hfind r hr)
    | some r' =>
      have hr' : r' ∈ rs := List.mem_of_find?_eq_some hfind
      have hq' : r'.question_id = q.id := by
        have := List.find?_some hfind
        simpa using this
      have : r' = r :=
        List.inj_on_of_nodup_map hnd hr' hr (hq'.trans hq.symm)
      subst this
      simp [answerYes, hans, hy]

/-- The writes `complete_session` commits when the pass verdict is
`b`: Application.status, Session.status, Session.result and
Session.completed_at, on the rows referenced by the session. -/
def applyCompletion (db : DB) (now : Nat) (s : ResponseSession) (b : Bool) : DB :=
  { db with
    applications := db.applications.map (fun x =>
      if x.id == s.application_id then
        { x with status := if b then ApplicationStatus.SCREENING_PASSED
                           else ApplicationStatus.SCREENING_FAILED }
      else x)
    sessions := db.sessions.map (fun t =>
      if t.id == s.id then
        { t with
          status := InterviewStatus.COMPLETED
          result := some (if b then InterviewResult.SELECTED else InterviewResult.REJECTED)
          completed_at := some now }
      else t) }

theorem complete_session_eq (db : DB) (now sid : Nat) (s : ResponseSession)
    (hs : findSession db sid = some s)
    (ha : (findApplication db s.application_id).isSome)
    (hq : (findQuestionSet db s.set_id).isSome)
    (hnn : ∀ r ∈ responsesOf db sid, r.answer ≠ none) :
    complete_session db now sid =
      (applyCompletion db now s
         ((yesNoQuestions db s.set_id).all (gatePass (responsesOf db sid))),
       Except.ok (if (yesNoQuestions db s.set_id).all (gatePass (responsesOf db sid))
                  then "SCREENING_PASSED" else "SCREENING_FAILED")) := by
  cases hA : findApplication db s.application_id with
  | none => rw [hA] at ha; simp at ha
  | some a =>
    cases hQ : findQuestionSet db s.set_id with
    | none => rw [hQ] at hq; simp at hq
    | some qs =>
      have haid : a.id = s.application_id := by
        have := List.find?_some hA
        simpa using this
      have hE := evalGates_eq_all (responsesOf db sid) hnn (yesNoQuestions db s.set_id)
      cases hb : (yesNoQuestions db s.set_id).all (gatePass (responsesOf db sid)) with
      | false =>
        rw [hb] at hE
        simp only [complete_session, hs, hA, hQ, hE]
        simp [applyCompletion, haid, ApplicationStatus.value]
      | true =>
        rw [hb] at hE
        simp only [complete_session, hs, hA, hQ, hE]
        simp [applyCompletion, haid, ApplicationStatus.value]

theorem applyCompletion_session_fields (db : DB) (now : Nat)
    (s : ResponseSession) (b : Bool) :
    ∀ t ∈ (applyCompletion db now s b).sessions, t.id = s.id →
      t.status = InterviewStatus.COMPLETED ∧
      t.result = some (if b then InterviewResult.SELECTED else InterviewResult.REJECTED) ∧
      t.completed_at = some now := by
  intro t ht hid
  simp only [applyCompletion, List.mem_map] at ht
  obtain ⟨u, _, rfl⟩ := ht
  by_cases h : (u.id == s.id) = true
  · simp [h]
  · rw [if_neg h] at hid ⊢
    exact absurd (by simpa using hid) h

theorem applyCompletion_application_fields (db : DB) (now : Nat)
    (s : ResponseSession) (b : Bool) :
    ∀ x ∈ (applyCompletion db now s b).applications, x.id = s.application_id →
      x.status = (if b then ApplicationStatus.SCREENING_PASSED
                  else ApplicationStatus.SCREENING_FAILED) := by
  intro x hx hid
  simp only [applyCompletion, List.mem_map] at hx
  obtain ⟨u, _, rfl⟩ := hx
  by_cases h : (u.id == s.application_id) = true
  · simp [h]
  · rw [if_neg h] at hid ⊢
    exact absurd (by simpa using hid) h

theorem isGating_eq_true_iff (q : Question) :
    isGating q = true ↔
      q.question_type = "mcq_single" ∧
        ∃ s, q.options = some s ∧ s ≠ "" ∧ strIn "Yes" s = true ∧ strIn "No" s = true := by
  cases ho : q.options with
  | none => simp [isGating, ho]
  | some s =>
    simp only [isGating, ho, Bool.and_eq_true, beq_iff_eq, bne_iff_ne, Option.some.injEq]
    constructor
    · rintro ⟨h1, ⟨h2, h3⟩, h4⟩
      exact ⟨h1, s, rfl, h2, h3, h4⟩
    · rintro ⟨h1, s', hs', h2, h3, h4⟩
      rcases hs' with rfl
      exact ⟨h1, ⟨h2, h3⟩, h4⟩

/-- C1 (amended): the questions `complete_session` evaluates for a
session's question set are exactly the SINGLE_CHOICE (mcq_single)
questions of that set whose non-empty options string contains both
"Yes" and "No" as substrings — substring containment, not an option
set equal to the two tokens. -/
theorem yesNoQuestions_mem_iff (db : DB) (setId : Nat) (q : Question) :
    q ∈ yesNoQuestions db setId ↔
      q ∈ questionsOf db setId ∧ q.question_type = "mcq_single" ∧
        ∃ s, q.options = some s ∧ s ≠ "" ∧ strIn "Yes" s = true ∧ strIn "No" s = true := by
  unfold yesNoQuestions
  rw [List.mem_filter, isGating_eq_true_iff]

/-- A single-choice question whose canonical option set strictly
exceeds the two tokens Yes and No. -/
def looseQuestion : Question :=
  { id := 11, set_id := 10, question_text := "Do you have UAE Experience?"
    options := some "Yes,No,Maybe", question_type := "mcq_single", is_required := true }

/-- A database in which session 7 screens the question set containing
only `looseQuestion`, with no responses stored. -/
def looseDB : DB :=
  { jobs := [{ id := 1, title := "Backend Engineer" }]
    candidates := []
    applications := [{ id := 2, job_id := 1, candidate_id := 3
                       status := ApplicationStatus.SOURCED }]
    question_sets := [{ id := 10, job_id := 1, name := "Prescreening" }]
    questions := [looseQuestion]
    sessions := [{ id := 7, application_id := 2, set_id := 10
                   status := InterviewStatus.IN_PROGRESS, result := none, completed_at := none }]
    responses := []
    next_id := 20 }

/-- C1 (counterexample): `looseQuestion` has option set
Yes, No, Maybe — not exactly the two tokens — yet `complete_session`
evaluates it (it is the whole `yes_no_questions` list of session 7),
and the unanswered session therefore completes SCREENING_FAILED even
though the spec's gating set for it is empty. -/
theorem gating_substring_counterexample :
    yesNoQuestions looseDB 10 = [looseQuestion] ∧
    specGatingQuestion looseQuestion = false ∧
    exactYesNoSet (optionTokens "Yes,No,Maybe") = false ∧
    (questionsOf looseDB 10).filter specGatingQuestion = [] ∧
    (complete_session looseDB 0 7).2 = Except.ok "SCREENING_FAILED" := by decide

/-- C2: with the session, application and question set resolvable,
all stored answers non-null and at most one response per question,
completion returns SCREENING_PASSED exactly when every evaluated
yes/no question has a stored response answering "yes"
(case-insensitively) — vacuously so for zero such questions —
otherwise SCREENING_FAILED; the session is marked COMPLETED with
result SELECTED respectively REJECTED and the application's status is
set accordingly. -/
theorem complete_selected_iff (db : DB) (now sid : Nat) (s : ResponseSession)
    (hs : findSession db sid = some s)
    (ha : (findApplication db s.application_id).isSome)
    (hq : (findQuestionSet db s.set_id).isSome)
    (hnn : ∀ r ∈ responsesOf db sid, r.answer ≠ none)
    (hnd : ((responsesOf db sid).map (fun r => r.question_id)).Nodup) :
    ((complete_session db now sid).2 = Except.ok "SCREENING_PASSED" ↔
       ∀ q ∈ yesNoQuestions db s.set_id, ∃ r ∈ responsesOf db sid,
         r.question_id = q.id ∧ ∃ a, r.answer = some a ∧ lowerStr a = "yes")
    ∧ ((complete_session db now sid).2 = Except.ok "SCREENING_PASSED" ∨
       (complete_session db now sid).2 = Except.ok "SCREENING_FAILED")
    ∧ (∀ t ∈ (complete_session db now sid).1.sessions, t.id = s.id →
         t.status = InterviewStatus.COMPLETED ∧
         t.result = some (if (complete_session db now sid).2 = Except.ok "SCREENING_PASSED"
                          then InterviewResult.SELECTED else InterviewResult.REJECTED))
    ∧ (∀ x ∈ (complete_session db now sid).1.applications, x.id = s.application_id →
         x.status = (if (complete_session db now sid).2 = Except.ok "SCREENING_PASSED"
                     then ApplicationStatus.SCREENING_PASSED
                     else ApplicationStatus.SCREENING_FAILED)) := by
  have hM := complete_session_eq db now sid s hs ha hq hnn
  have hiff : ((yesNoQuestions db s.set_id).all (gatePass (responsesOf db sid)) = true) ↔
      (∀ q ∈ yesNoQuestions db s.set_id, ∃ r ∈ responsesOf db sid,
         r.question_id = q.id ∧ ∃ a, r.answer = some a ∧ lowerStr a = "yes") := by
    rw [List.all_eq_true]
    constructor
    · intro h q hq2
      exact (gatePass_iff_exists (responsesOf db sid) q hnd).mp (h q hq2)
    · intro h q hq2
      exact (gatePass_iff_exists (responsesOf db sid) q hnd).mpr (h q hq2)
  cases hb : (yesNoQuestions db s.set_id).all (gatePass (responsesOf db sid)) with
  | true =>
    rw [hb] at hM
    rw [hM]
    refine ⟨iff_of_true rfl (hiff.mp hb), Or.inl rfl, ?_, ?_⟩
    · intro t ht hid
      have hfields := applyCompletion_session_fields db now s true t ht hid
      refine ⟨hfields.1, ?_⟩
      rw [if_pos rfl]
      simpa using hfields.2.1
    · intro x hx hid
      have hfield := applyCompletion_application_fields db now s true x hx hid
      rw [if_pos rfl]
      simpa using hfield
  | false =>
    rw [hb] at hM
    simp only [Bool.false_eq_true, if_false] at hM
    rw [hM]
    have hne : (Except.ok "SCREENING_FAILED" : Except ApiError String) ≠
        Except.ok "SCREENING_PASSED" := by decide
    refine ⟨?_, Or.inr rfl, ?_, ?_⟩
    · constructor
      · intro h
        exact absurd h hne
      · intro h
        have hT := hiff.mpr h
        rw [hb] at hT
        cases hT
    · intro t ht hid
      have hfields := applyCompletion_session_fields db now s false t ht hid
      refine ⟨hfields.1, ?_⟩
      rw [if_neg hne]
      simpa using hfields.2.1
    · intro x hx hid
      have hfield := applyCompletion_application_fields db now s false x hx hid
      rw [if_neg hne]
      simpa using hfield

/-- The session of the all-"yes" witness database. -/
def passSession : ResponseSession :=
  { id := 5, application_id := 1, set_id := 1
    status := InterviewStatus.IN_PROGRESS, result := none, completed_at := none }

/-- Witness database: one gating question, answered "YES". -/
def passDB : DB :=
  { jobs := [{ id := 1, title := "Backend Engineer" }]
    candidates := [{ id := 1, full_name := some "Jane Doe", email := some "jane@example.com" }]
    applications := [{ id := 1, job_id := 1, candidate_id := 1
                       status := ApplicationStatus.SOURCED }]
    question_sets := [{ id := 1, job_id := 1, name := "Prescreening" }]
    questions := [{ id := 1, set_id := 1, question_text := "Visa?"
                    options := some "Yes,No", question_type := "mcq_single", is_required := true }]
    sessions := [passSession]
    responses := [{ id := 9, session_id := 5, question_id := 1, answer := some "YES" }]
    next_id := 100 }

theorem complete_selected_iff_witness :
    ((findSession passDB 5 = some passSession)
      ∧ (findApplication passDB passSession.application_id).isSome
      ∧ (findQuestionSet passDB passSession.set_id).isSome
      ∧ (∀ r ∈ responsesOf passDB 5, r.answer ≠ none)
      ∧ ((responsesOf passDB 5).map (fun r => r.question_id)).Nodup)
    ∧ ((complete_session passDB 7 5).2 = Except.ok "SCREENING_PASSED" ↔
       ∀ q ∈ yesNoQuestions passDB passSession.set_id, ∃ r ∈ responsesOf passDB 5,
         r.question_id = q.id ∧ ∃ a, r.answer = some a ∧ lowerStr a = "yes") :=
  ⟨⟨by decide, by decide, by decide, by decide, by decide⟩,
   (complete_selected_iff passDB 7 5 passSession (by decide) (by decide) (by decide)
      (by decide) (by decide)).1⟩

/-- C3: completing the unchanged session a second time returns the
same outcome, but `completed_at` is overwritten with the second call's
current time (3, then 9) — completion is not idempotent on the
timestamp. -/
theorem complete_twice_updates_completed_at :
    (complete_session passDB 3 5).2 = Except.ok "SCREENING_PASSED" ∧
    (complete_session (complete_session passDB 3 5).1 9 5).2 = Except.ok "SCREENING_PASSED" ∧
    ((complete_session passDB 3 5).1.sessions.map (fun t => t.completed_at)) = [some 3] ∧
    ((complete_session (complete_session passDB 3 5).1 9 5).1.sessions.map
        (fun t => t.completed_at)) = [some 9] ∧
    ((complete_session (complete_session passDB 3 5).1 9 5).1.sessions.map
        (fun t => (t.status, t.result))) =
      [(InterviewStatus.COMPLETED, some InterviewResult.SELECTED)] := by decide

/-- A database whose only session is already COMPLETED. -/
def completedDB : DB :=
  { passDB with
    sessions := [{ id := 5, application_id := 1, set_id := 1
                   status := InterviewStatus.COMPLETED
                   result := some InterviewResult.SELECTED, completed_at := some 3 }] }

/-- C4: submitting to a COMPLETED session silently succeeds — the
handler checks only that the session exists, stores a new Response row
and returns it, instead of failing with a validation error. -/
theorem submit_after_completion_succeeds :
    ((findSession completedDB 5).map (fun s => s.status)) = some InterviewStatus.COMPLETED ∧
    (submit_response completedDB 5 { question_id := 1, answer := some "no" }).2 =
      Except.ok { id := 100, session_id := 5, question_id := 1, answer := some "no" } ∧
    (submit_response completedDB 5 { question_id := 1, answer := some "no" }).1.responses.length =
      completedDB.responses.length + 1 := by decide

/-- C6: a second submission for the same (session, question) pair
appends a second Response row instead of replacing the first — both
answers remain stored. -/
theorem resubmission_creates_duplicate_response :
    (((submit_response (submit_response looseDB 7
          { question_id := 11, answer := some "Yes" }).1 7
        { question_id := 11, answer := some "No" }).1.responses.filter
      (fun r => r.session_id == 7 && r.question_id == 11)).map (fun r => r.answer)) =
      [some "Yes", some "No"] := by decide

/-- C5 (counterexample): question 1 of `passDB` is SINGLE_CHOICE with
option set Yes, No; submitting the literal "Banana" — which matches no
option identifier or token, in any case — succeeds and stores a
Response instead of failing validation. -/
theorem submit_invalid_option_stored :
    (passDB.questions.map (fun q => (q.question_type, q.options))) =
      [("mcq_single", some "Yes,No")] ∧
    optionTokens "Yes,No" = ["Yes", "No"] ∧
    (optionTokens "Yes,No").contains "Banana" = false ∧
    ((optionTokens "Yes,No").map lowerStr).contains (lowerStr "Banana") = false ∧
    (submit_response passDB 5 { question_id := 1, answer := some "Banana" }).2 =
      Except.ok { id := 100, session_id := 5, question_id := 1, answer := some "Banana" } ∧
    (submit_response passDB 5 { question_id := 1, answer := some "Banana" }).1.responses.length =
      passDB.responses.length + 1 := by decide

/-- C5 (amended): the legacy revision's submit_response does enforce
the rule — for a non-TEXT question, an answer referencing any option
id outside the question's option set is rejected with a 400 and the
database is left unchanged. -/
theorem legacy_submit_rejects_invalid_option (db : Legacy.DB)
    (rc : Legacy.ResponseCreate) (q : Legacy.Question) (i : Nat)
    (hfind : db.questions.find? (fun x => x.id == rc.question_id) = some q)
    (htype : q.question_type ≠ Legacy.QuestionType.TEXT)
    (hmem : i ∈ rc.selected_option_ids)
    (hbad : i ∉ q.options.map (fun o => o.id)) :
    Legacy.submit_response db rc =
      (db, Except.error (ApiError.badRequest "Invalid option ID provided.")) := by
  have htypeb : (q.question_type == Legacy.QuestionType.TEXT) = false := by
    simpa using htype
  have hnonempty : rc.selected_option_ids.isEmpty = false := by
    cases hsel : rc.selected_option_ids with
    | nil => rw [hsel] at hmem; cases hmem
    | cons a t => rfl
  simp [Legacy.submit_response, hfind, htypeb, hnonempty]
  exact ⟨i, hmem, fun o ho he => hbad (List.mem_map.mpr ⟨o, ho, he⟩)⟩

/-- A legacy single-choice question with option ids 21 and 22. -/
def badChoiceQuestion : Legacy.Question :=
  { id := 4, question_type := Legacy.QuestionType.MCQ_SINGLE
    options := [{ id := 21, option_text := "Yes" }, { id := 22, option_text := "No" }] }

/-- A legacy store holding only `badChoiceQuestion`. -/
def legacyDB : Legacy.DB :=
  { questions := [badChoiceQuestion], responses := [], next_id := 50 }

/-- A legacy submission referencing the non-existent option id 99. -/
def badRC : Legacy.ResponseCreate :=
  { session_id := 1, candidate_id := 2, question_id := 4
    response_text := none, selected_option_ids := [99] }

theorem legacy_submit_rejects_invalid_option_witness :
    ((legacyDB.questions.find? (fun x => x.id == badRC.question_id) = some badChoiceQuestion)
      ∧ badChoiceQuestion.question_type ≠ Legacy.QuestionType.TEXT
      ∧ 99 ∈ badRC.selected_option_ids
      ∧ 99 ∉ badChoiceQuestion.options.map (fun o => o.id))
    ∧ Legacy.submit_response legacyDB badRC =
        (legacyDB, Except.error (ApiError.badRequest "Invalid option ID provided.")) :=
  ⟨⟨by decide, by decide, by decide, by decide⟩,
   legacy_submit_rejects_invalid_option legacyDB badRC badChoiceQuestion 99
     (by decide) (by decide) (by decide) (by decide)⟩

/-- Whether the batch loop can deliver to an application's candidate:
the candidate row resolves and its email is present and non-empty. -/
def hasEmail (cs : List Candidate) (a : Application) : Bool :=
  match cs.find? (fun c => c.id == a.candidate_id) with
  | none => false
  | some c =>
    match c.email with
    | none => false
    | some e => e != ""

/-- The key under which the batch loop records an application's
outcome: the candidate's email, or the AppID fallback on failure. -/
def entryKey (cs : List Candidate) (a : Application) : String :=
  match cs.find? (fun c => c.id == a.candidate_id) with
  | none => "AppID: " ++ toString a.id
  | some c =>
    match c.email with
    | none => "AppID: " ++ toString a.id
    | some e => if e == "" then "AppID: " ++ toString a.id else e

/-- The status string the batch loop records for an application, when
every delivery attempt reports "Sent". -/
def entryVal (cs : List Candidate) (a : Application) : String :=
  if hasEmail cs a then "Sent" else "Failed: Missing candidate data or email address."

theorem dictInsert_eq_append (acc : List (String × String)) (k v : String)
    (hk : k ∉ acc.map Prod.fst) : dictInsert acc k v = acc ++ [(k, v)] := by
  induction acc with
  | nil => rfl
  | cons p t ih =>
    obtain ⟨k', v'⟩ := p
    have hsplit : k ≠ k' ∧ k ∉ t.map Prod.fst := by simpa using hk
    simp only [dictInsert]
    rw [if_neg (by simpa using Ne.symm hsplit.1), ih hsplit.2]
    rfl

theorem sourcedLoop_spec (emailFn : String → String → Nat → String) (qsetId : Nat)
    (hsent : ∀ n e i, emailFn n e i = "Sent") :
    ∀ (apps : List Application) (db : DB) (acc : List (String × String)),
      (acc.map Prod.fst ++ apps.map (entryKey db.candidates)).Nodup →
      (sourcedLoop emailFn qsetId apps db acc).1.candidates = db.candidates ∧
      (sourcedLoop emailFn qsetId apps db acc).1.applications = db.applications ∧
      (sourcedLoop emailFn qsetId apps db acc).1.sessions.length =
        db.sessions.length + (apps.filter (hasEmail db.candidates)).length ∧
      (sourcedLoop emailFn qsetId apps db acc).2 =
        acc ++ apps.map (fun a => (entryKey db.candidates a, entryVal db.candidates a))
  | [], db, acc, hnd => by simp [sourcedLoop]
  | a :: rest, db, acc, hnd => by
    have hfreshk : entryKey db.candidates a ∉ acc.map Prod.fst := by
      intro hmem
      refine (List.nodup_append.mp hnd).2.2 hmem ?_
      simp
    have hnd' : ((acc.map Prod.fst ++ [entryKey db.candidates a]) ++
        rest.map (entryKey db.candidates)).Nodup := by
      simpa [List.append_assoc] using hnd
    cases hc : db.candidates.find? (fun c => c.id == a.candidate_id) with
    | none =>
      have hkey : entryKey db.candidates a = "AppID: " ++ toString a.id := by
        simp [entryKey, hc]
      have hEm : hasEmail db.candidates a = false := by
        simp [hasEmail, hc]
      have hacc : dictInsert acc ("AppID: " ++ toString a.id)
          "Failed: Missing candidate data or email address." =
          acc ++ [(entryKey db.candidates a, entryVal db.candidates a)] := by
        rw [← hkey, dictInsert_eq_append acc _ _ hfreshk, entryVal, hEm]
        simp
      have ih := sourcedLoop_spec emailFn qsetId hsent rest db
        (acc ++ [(entryKey db.candidates a, entryVal db.candidates a)])
        (by simpa using hnd')
      simp only [sourcedLoop, hc, hacc]
      refine ⟨ih.1, ih.2.1, ?_, ?_⟩
      · rw [ih.2.2.1, List.filter_cons, hEm]
        simp
      · rw [ih.2.2.2]
        simp [List.append_assoc]
    | some c =>
      cases he : c.email with
      | none =>
        have hkey : entryKey db.candidates a = "AppID: " ++ toString a.id := by
          simp [entryKey, hc, he]
        have hEm : hasEmail db.candidates a = false := by
          simp [hasEmail, hc, he]
        have hacc : dictInsert acc ("AppID: " ++ toString a.id)
            "Failed: Missing candidate data or email address." =
            acc ++ [(entryKey db.candidates a, entryVal db.candidates a)] := by
          rw [← hkey, dictInsert_eq_append acc _ _ hfreshk, entryVal, hEm]
          simp
        have ih := sourcedLoop_spec emailFn qsetId hsent rest db
          (acc ++ [(entryKey db.candidates a, entryVal db.candidates a)])
          (by simpa using hnd')
        simp only [sourcedLoop, hc, he, hacc]
        refine ⟨ih.1, ih.2.1, ?_, ?_⟩
        · rw [ih.2.2.1, List.filter_cons, hEm]
          simp
        · rw [ih.2.2.2]
          simp [List.append_assoc]
      | some e =>
        cases hee : (e == "") with
        | true =>
          have hkey : entryKey db.candidates a = "AppID: " ++ toString a.id := by
            simp [entryKey, hc, he, hee]
          have hEm : hasEmail db.candidates a = false := by
            simp only [hasEmail, hc, he]
            simpa using hee
          have hacc : dictInsert acc ("AppID: " ++ toString a.id)
              "Failed: Missing candidate data or email address." =
              acc ++ [(entryKey db.candidates a, entryVal db.candidates a)] := by
            rw [← hkey, dictInsert_eq_append acc _ _ hfreshk, entryVal, hEm]
            simp
          have ih := sourcedLoop_spec emailFn qsetId hsent rest db
            (acc ++ [(entryKey db.candidates a, entryVal db.candidates a)])
            (by simpa using hnd')
          simp only [sourcedLoop, hc, he, hee, if_true]
          rw [hacc]
          refine ⟨ih.1, ih.2.1, ?_, ?_⟩
          · rw [ih.2.2.1, List.filter_cons, hEm]
            simp
          · rw [ih.2.2.2]
            simp [List.append_assoc]
        | false =>
          have hkey : entryKey db.candidates a = e := by
            simp [entryKey, hc, he, hee]
          have hEm : hasEmail db.candidates a = true := by
            simp only [hasEmail, hc, he]
            simpa using hee
          have hval : entryVal db.candidates a = "Sent" := by
            simp [entryVal, hEm]
          have hcand : (addSession db a.id qsetId).candidates = db.candidates := rfl
          have ih := sourcedLoop_spec emailFn qsetId hsent rest
            (addSession db a.id qsetId)
            (acc ++ [(entryKey db.candidates a, entryVal db.candidates a)])
            (by
              rw [hcand]
              simpa using hnd')
          have hacc : dictInsert acc e (emailFn (nameOr c.full_name) e db.next_id) =
              acc ++ [(entryKey db.candidates a, entryVal db.candidates a)] := by
            rw [hsent, dictInsert_eq_append acc e _ (by rw [← hkey]; exact hfreshk),
              hkey, hval]
          simp only [sourcedLoop, hc, he, hee, Bool.false_eq_true, if_false]
          rw [hacc]
          rw [hcand] at ih
          refine ⟨ih.1, ih.2.1, ?_, ?_⟩
          · rw [ih.2.2.1, List.filter_cons, hEm]
            simp [addSession]
            omega
          · rw [ih.2.2.2]
            simp [List.append_assoc]

/-- C7 (amended): when every delivery attempt reports "Sent" and the
per-candidate report keys are distinct, the batch run over a job's
SOURCED applications leaves every application row (hence every
Application.status) and every candidate row unchanged, creates one
session per application whose candidate has a usable email — and none
for the others — and reports one entry per application: the
candidate's email mapped to "Sent", or the AppID fallback mapped to
the explicit failure reason.  One candidate's failure never aborts the
rest. -/
theorem send_to_sourced_partial_failure (db : DB)
    (emailFn : String → String → Nat → String) (jobId : Nat) (qset : QuestionSet)
    (happs : sourcedApps db jobId ≠ [])
    (hq : db.question_sets.find? (fun qs =>
        qs.job_id == jobId && qs.name == "Prescreening") = some qset)
    (hsent : ∀ n e i, emailFn n e i = "Sent")
    (hkeys : ((sourcedApps db jobId).map (entryKey db.candidates)).Nodup) :
    (send_to_all_sourced_candidates db emailFn jobId).1.applications = db.applications ∧
    (send_to_all_sourced_candidates db emailFn jobId).1.candidates = db.candidates ∧
    (send_to_all_sourced_candidates db emailFn jobId).1.sessions.length =
      db.sessions.length + ((sourcedApps db jobId).filter (hasEmail db.candidates)).length ∧
    (send_to_all_sourced_candidates db emailFn jobId).2 =
      Except.ok ((sourcedApps db jobId).map (fun a =>
        (entryKey db.candidates a, entryVal db.candidates a))) := by
  have hie : (sourcedApps db jobId).isEmpty = false := by
    cases hap : sourcedApps db jobId with
    | nil => exact absurd hap happs
    | cons x t => rfl
  have hloop := sourcedLoop_spec emailFn qset.id hsent (sourcedApps db jobId) db []
    (by simpa using hkeys)
  simp only [send_to_all_sourced_candidates, hie, hq, Bool.false_eq_true, if_false]
  exact ⟨hloop.2.1, hloop.1, hloop.2.2.1, by rw [hloop.2.2.2]; simp⟩

/-- Batch database: two SOURCED applications for job 1, one candidate
with an email and one without. -/
def batchDB : DB :=
  { jobs := [{ id := 1, title := "Backend Engineer" }]
    candidates := [{ id := 1, full_name := some "Jane Doe", email := some "jane@example.com" },
                   { id := 2, full_name := some "No Mail", email := none }]
    applications := [{ id := 1, job_id := 1, candidate_id := 1
                       status := ApplicationStatus.SOURCED },
                     { id := 2, job_id := 1, candidate_id := 2
                       status := ApplicationStatus.SOURCED }]
    question_sets := [{ id := 1, job_id := 1, name := "Prescreening" }]
    questions := []
    sessions := []
    responses := []
    next_id := 30 }

/-- C7 (counterexample): with N = 2 SOURCED applications of which one
candidate has no email, the batch reports 1 success and 1 explicit
failure but creates only 1 session (for application 1), not all 2. -/
theorem batch_missing_email_skips_session :
    (sourcedApps batchDB 1).length = 2 ∧
    (send_to_all_sourced_candidates batchDB (fun _ _ _ => "Sent") 1).2 =
      Except.ok [("jane@example.com", "Sent"),
                 ("AppID: 2", "Failed: Missing candidate data or email address.")] ∧
    (send_to_all_sourced_candidates batchDB (fun _ _ _ => "Sent") 1).1.sessions.length = 1 ∧
    ((send_to_all_sourced_candidates batchDB (fun _ _ _ => "Sent") 1).1.sessions.map
      (fun s => s.application_id)) = [1] ∧
    (send_to_all_sourced_candidates batchDB (fun _ _ _ => "Sent") 1).1.applications =
      batchDB.applications := by decide

theorem send_to_sourced_partial_failure_witness :
    ((sourcedApps batchDB 1 ≠ [])
      ∧ (batchDB.question_sets.find? (fun qs =>
          qs.job_id == 1 && qs.name == "Prescreening") =
            some { id := 1, job_id := 1, name := "Prescreening" })
      ∧ (∀ n e i, (fun (_ : String) (_ : String) (_ : Nat) => "Sent") n e i = "Sent")
      ∧ ((sourcedApps batchDB 1).map (entryKey batchDB.candidates)).Nodup)
    ∧ (send_to_all_sourced_candidates batchDB (fun _ _ _ => "Sent") 1).2 =
        Except.ok ((sourcedApps batchDB 1).map (fun a =>
          (entryKey batchDB.candidates a, entryVal batchDB.candidates a))) :=
  ⟨⟨by decide, by decide, fun n e i => rfl, by decide⟩,
   (send_to_sourced_partial_failure batchDB (fun _ _ _ => "Sent") 1
      { id := 1, job_id := 1, name := "Prescreening" }
      (by decide) (by decide) (fun n e i => rfl) (by decide)).2.2.2⟩

theorem forall2_sessionStep_refl : ∀ l : List ResponseSession, List.Forall₂ SessionStep l l
  | [] => .nil
  | _ :: t => .cons ⟨rfl, le_refl _, id⟩ (forall2_sessionStep_refl t)

theorem forall2_sessionStep_trans {l1 l2 l3 : List ResponseSession}
    (h12 : List.Forall₂ SessionStep l1 l2) (h23 : List.Forall₂ SessionStep l2 l3) :
    List.Forall₂ SessionStep l1 l3 := by
  induction h12 generalizing l3 with
  | nil => cases h23; exact .nil
  | cons hR _ ih =>
    cases h23 with
    | cons hR' hF' =>
      exact .cons ⟨hR'.1.trans hR.1, hR.2.1.trans hR'.2.1, fun hc => hR'.2.2 (hR.2.2 hc)⟩
        (ih hF')

theorem forall2_map_self {α : Type} (R : α → α → Prop) :
    ∀ (l : List α) (f : α → α), (∀ x ∈ l, R x (f x)) → List.Forall₂ R l (l.map f)
  | [], _, _ => .nil
  | x :: t, f, h =>
    .cons (h x (List.mem_cons_self x t))
      (forall2_map_self R t f (fun y hy => h y (List.mem_cons_of_mem x hy)))

theorem get_test_step (db : DB) (sid : Nat) (hnd : IdsNodup db) (hinv : ResultInv db) :
    List.Forall₂ SessionStep db.sessions (get_test db sid).1.sessions ∧
    IdsNodup (get_test db sid).1 ∧ ResultInv (get_test db sid).1 := by
  cases hS : findSession db sid with
  | none =>
    simp only [get_test, hS]
    exact ⟨forall2_sessionStep_refl _, hnd, hinv⟩
  | some s =>
    have hsmem : s ∈ db.sessions := List.mem_of_find?_eq_some hS
    cases hA : findApplication db s.application_id with
    | none =>
      simp only [get_test, hS, hA]
      exact ⟨forall2_sessionStep_refl _, hnd, hinv⟩
    | some a =>
      cases hQ : findQuestionSet db s.set_id with
      | none =>
        simp only [get_test, hS, hA, hQ]
        exact ⟨forall2_sessionStep_refl _, hnd, hinv⟩
      | some qs =>
        cases hP : (s.status == InterviewStatus.PENDING) with
        | false =>
          cases hJ : findJob db a.job_id with
          | none =>
            simp only [get_test, hS, hA, hQ, hP, Bool.false_eq_true, if_false, hJ]
            exact ⟨forall2_sessionStep_refl _, hnd, hinv⟩
          | some j =>
            simp only [get_test, hS, hA, hQ, hP, Bool.false_eq_true, if_false, hJ]
            exact ⟨forall2_sessionStep_refl _, hnd, hinv⟩
        | true =>
          have hpend : s.status = InterviewStatus.PENDING := by simpa using hP
          have hstep : ∀ t ∈ db.sessions, SessionStep t
              (if t.id == s.id then { t with status := InterviewStatus.IN_PROGRESS } else t) := by
            intro t ht
            by_cases h : (t.id == s.id) = true
            · have hts : t = s :=
                List.inj_on_of_nodup_map hnd ht hsmem (by simpa using h)
              rw [if_pos h]
              refine ⟨rfl, ?_, ?_⟩
              · rw [hts, hpend]; exact Nat.zero_le _
              · intro hc; rw [hts, hpend] at hc; cases hc
            · rw [if_neg h]
              exact ⟨rfl, le_refl _, id⟩
          have hids : ((db.sessions.map (fun t =>
              if t.id == s.id then { t with status := InterviewStatus.IN_PROGRESS } else t)).map
                (fun u => u.id)).Nodup := by
            have heq : ((db.sessions.map (fun t =>
                if t.id == s.id then { t with status := InterviewStatus.IN_PROGRESS } else t)).map
                  (fun u => u.id)) = db.sessions.map (fun u => u.id) := by
              rw [List.map_map]
              refine List.map_congr_left ?_
              intro t _
              simp only [Function.comp_apply]
              by_cases h : (t.id == s.id) = true
              · rw [if_pos h]
              · rw [if_neg h]
            rw [heq]
            exact hnd
          have hinv' : ∀ t' ∈ db.sessions.map (fun t =>
              if t.id == s.id then { t with status := InterviewStatus.IN_PROGRESS } else t),
              t'.result ≠ none → t'.status = InterviewStatus.COMPLETED := by
            intro t' ht' hres
            rw [List.mem_map] at ht'
            obtain ⟨t, ht, rfl⟩ := ht'
            by_cases h : (t.id == s.id) = true
            · exfalso
              have hts : t = s :=
                List.inj_on_of_nodup_map hnd ht hsmem (by simpa using h)
              rw [if_pos h] at hres
              have hsres : s.result = none := by
                cases hr : s.result with
                | none => rfl
                | some v =>
                  have := hinv s hsmem (by rw [hr]; exact Option.some_ne_none v)
                  rw [this] at hpend
                  cases hpend
              rw [hts] at hres
              exact hres hsres
            · rw [if_neg h] at hres ⊢
              exact hinv t ht hres
          cases hJ : findJob db a.job_id with
          | none =>
            simp only [get_test, hS, hA, hQ, hP, if_true, hJ]
            exact ⟨forall2_map_self SessionStep db.sessions _ hstep,
              hids,
              by intro t' ht' hres; exact hinv' t' ht' hres⟩
          | some j =>
            simp only [get_test, hS, hA, hQ, hP, if_true, hJ]
            exact ⟨forall2_map_self SessionStep db.sessions _ hstep,
              hids,
              by intro t' ht' hres; exact hinv' t' ht' hres⟩

theorem submit_response_sessions (db : DB) (sid : Nat) (rc : ResponseCreate) :
    (submit_response db sid rc).1.sessions = db.sessions := by
  cases h : findSession db sid <;> simp [submit_response, h]

theorem complete_session_step (db : DB) (now sid : Nat)
    (hnd : IdsNodup db) (hinv : ResultInv db) :
    List.Forall₂ SessionStep db.sessions (complete_session db now sid).1.sessions ∧
    IdsNodup (complete_session db now sid).1 ∧ ResultInv (complete_session db now sid).1 := by
  cases hS : findSession db sid with
  | none =>
    simp only [complete_session, hS]
    exact ⟨forall2_sessionStep_refl _, hnd, hinv⟩
  | some s =>
    cases hA : findApplication db s.application_id with
    | none =>
      simp only [complete_session, hS, hA]
      exact ⟨forall2_sessionStep_refl _, hnd, hinv⟩
    | some a =>
      cases hQ : findQuestionSet db s.set_id with
      | none =>
        simp only [complete_session, hS, hA, hQ]
        exact ⟨forall2_sessionStep_refl _, hnd, hinv⟩
      | some qs =>
        cases hE : evalGates (responsesOf db sid) (yesNoQuestions db s.set_id) with
        | error u =>
          simp only [complete_session, hS, hA, hQ, hE]
          exact ⟨forall2_sessionStep_refl _, hnd, hinv⟩
        | ok b =>
          have hstep : ∀ t ∈ db.sessions, SessionStep t
              (if t.id == s.id then
                { t with
                  status := InterviewStatus.COMPLETED
                  result := some (if b then InterviewResult.SELECTED else InterviewResult.REJECTED)
                  completed_at := some now }
              else t) := by
            intro t _
            by_cases h : (t.id == s.id) = true
            · rw [if_pos h]
              refine ⟨rfl, ?_, fun _ => rfl⟩
              cases t.status <;> simp [statusRank]
            · rw [if_neg h]
              exact ⟨rfl, le_refl _, id⟩
          have hids : ((db.sessions.map (fun t =>
              if t.id == s.id then
                { t with
                  status := InterviewStatus.COMPLETED
                  result := some (if b then InterviewResult.SELECTED else InterviewResult.REJECTED)
                  completed_at := some now }
              else t)).map (fun u => u.id)).Nodup := by
            have heq : ((db.sessions.map (fun t =>
                if t.id == s.id then
                  { t with
                    status := InterviewStatus.COMPLETED
                    result := some (if b then InterviewResult.SELECTED else InterviewResult.REJECTED)
                    completed_at := some now }
                else t)).map (fun u => u.id)) = db.sessions.map (fun u => u.id) := by
              rw [List.map_map]
              refine List.map_congr_left ?_
              intro t _
              simp only [Function.comp_apply]
              by_cases h : (t.id == s.id) = true
              · rw [if_pos h]
              · rw [if_neg h]
            rw [heq]
            exact hnd
          simp only [complete_session, hS, hA, hQ, hE]
          refine ⟨forall2_map_self SessionStep db.sessions _ hstep,
            hids, ?_⟩
          intro t' ht' _
          simp only [List.mem_map] at ht'
          obtain ⟨t, ht, rfl⟩ := ht'
          by_cases h : (t.id == s.id) = true
          · rw [if_pos h]
          · rw [if_neg h] at *
            exact hinv t ht (by assumption)

theorem applyOp_step (db : DB) (op : Op) (hnd : IdsNodup db) (hinv : ResultInv db) :
    List.Forall₂ SessionStep db.sessions (applyOp db op).sessions ∧
    IdsNodup (applyOp db op) ∧ ResultInv (applyOp db op) := by
  cases op with
  | fetch sid => exact get_test_step db sid hnd hinv
  | submit sid rc =>
    have h := submit_response_sessions db sid rc
    refine ⟨?_, ?_, ?_⟩
    · rw [show (applyOp db (Op.submit sid rc)).sessions = db.sessions from h]
      exact forall2_sessionStep_refl _
    · unfold IdsNodup
      rw [show (applyOp db (Op.submit sid rc)).sessions = db.sessions from h]
      exact hnd
    · intro t ht hres
      rw [show (applyOp db (Op.submit sid rc)).sessions = db.sessions from h] at ht
      exact hinv t ht hres
  | finish now sid => exact complete_session_step db now sid hnd hinv

/-- C8: across any sequence of candidate-flow operations (fetch,
submit, complete), every session's lifecycle status only moves forward
along PENDING, IN_PROGRESS, COMPLETED (`SessionStep` pairs each
original session with its successor of the same id, non-decreasing
`statusRank`, and COMPLETED terminal), the primary keys stay distinct,
and `result` stays null until the status is COMPLETED. -/
theorem session_lifecycle_forward (db : DB) (ops : List Op)
    (hnd : IdsNodup db) (hinv : ResultInv db) :
    List.Forall₂ SessionStep db.sessions (runOps db ops).sessions ∧
    IdsNodup (runOps db ops) ∧ ResultInv (runOps db ops) := by
  induction ops generalizing db with
  | nil => exact ⟨forall2_sessionStep_refl _, hnd, hinv⟩
  | cons op rest ih =>
    have h1 := applyOp_step db op hnd hinv
    have h2 := ih (applyOp db op) h1.2.1 h1.2.2
    exact ⟨forall2_sessionStep_trans h1.1 h2.1, h2.2⟩

theorem session_lifecycle_forward_witness :
    (IdsNodup passDB ∧ ResultInv passDB)
    ∧ (List.Forall₂ SessionStep passDB.sessions
        (runOps passDB [Op.fetch 5, Op.submit 5 { question_id := 1, answer := some "yes" },
          Op.finish 3 5]).sessions
      ∧ IdsNodup (runOps passDB [Op.fetch 5, Op.submit 5 { question_id := 1, answer := some "yes" },
          Op.finish 3 5])
      ∧ ResultInv (runOps passDB [Op.fetch 5, Op.submit 5 { question_id := 1, answer := some "yes" },
          Op.finish 3 5])) :=
  ⟨⟨by decide, by decide⟩,
   session_lifecycle_forward passDB
     [Op.fetch 5, Op.submit 5 { question_id := 1, answer := some "yes" }, Op.finish 3 5]
     (by decide) (by decide)⟩

/-- Whether `get_test`'s resolution step fails: the session is absent,
or its application or question set reference does not resolve. -/
def resolveFails (db : DB) (sid : Nat) : Bool :=
  match findSession db sid with
  | none => true
  | some s => (findApplication db s.application_id).isNone ||
      (findQuestionSet db s.set_id).isNone

/-- C9: whenever the session, its application or its question set
cannot be resolved, `get_test` returns NOT_FOUND with the database
untouched (nothing partial is served or committed); and any successful
call returns exactly the job title, the application id and the
question set's questions of a fully resolved session. -/
theorem get_test_not_found_or_payload (db : DB) (sid : Nat)
    (hfail : resolveFails db sid = true) :
    get_test db sid = (db, Except.error (ApiError.notFound "Test session not found or is incomplete."))
    ∧ ∀ (db2 : DB) (sid2 : Nat) (db' : DB) (p : TakeTestPayload),
        get_test db2 sid2 = (db', Except.ok p) →
        ∃ s a j, findSession db2 sid2 = some s ∧
          findApplication db2 s.application_id = some a ∧
          (findQuestionSet db2 s.set_id).isSome ∧
          findJob db2 a.job_id = some j ∧
          p = { job_title := j.title, response_session_id := s.id
                application_id := a.id, questions := questionsOf db2 s.set_id } := by
  constructor
  · unfold resolveFails at hfail
    cases hS : findSession db sid with
    | none => simp [get_test, hS]
    | some s =>
      rw [hS] at hfail
      cases hA : findApplication db s.application_id with
      | none => simp [get_test, hS, hA]
      | some a =>
        cases hQ : findQuestionSet db s.set_id with
        | none => simp [get_test, hS, hA, hQ]
        | some q =>
          simp [hA, hQ] at hfail
  · intro db2 sid2 db' p hok
    cases hS : findSession db2 sid2 with
    | none =>
      simp only [get_test, hS] at hok
      simp at hok
    | some s =>
      cases hA : findApplication db2 s.application_id with
      | none =>
        simp only [get_test, hS, hA] at hok
        simp at hok
      | some a =>
        cases hQ : findQuestionSet db2 s.set_id with
        | none =>
          simp only [get_test, hS, hA, hQ] at hok
          simp at hok
        | some q =>
          cases hJ : findJob db2 a.job_id with
          | none =>
            simp only [get_test, hS, hA, hQ, hJ] at hok
            simp at hok
          | some j =>
            simp only [get_test, hS, hA, hQ, hJ] at hok
            have h2 := congrArg Prod.snd hok
            simp only [Except.ok.injEq] at h2
            exact ⟨s, a, j, rfl, hA, by rw [hQ]; rfl, hJ, h2.symm⟩

theorem get_test_not_found_or_payload_witness :
    (resolveFails passDB 99 = true)
    ∧ get_test passDB 99 =
        (passDB, Except.error (ApiError.notFound "Test session not found or is incomplete.")) :=
  ⟨by decide, (get_test_not_found_or_payload passDB 99 (by decide)).1⟩

/-- Database in which session 5 has two yes/no questions: question 1
unanswered, question 2 answered with a null answer. -/
def shieldDB : DB :=
  { jobs := [{ id := 1, title := "Backend Engineer" }]
    candidates := []
    applications := [{ id := 1, job_id := 1, candidate_id := 1
                       status := ApplicationStatus.SOURCED }]
    question_sets := [{ id := 1, job_id := 1, name := "Prescreening" }]
    questions := [{ id := 1, set_id := 1, question_text := "Visa?"
                    options := some "Yes,No", question_type := "mcq_single", is_required := true },
                  { id := 2, set_id := 1, question_text := "Degree?"
                    options := some "Yes,No", question_type := "mcq_single", is_required := true }]
    sessions := [{ id := 5, application_id := 1, set_id := 1
                   status := InterviewStatus.IN_PROGRESS, result := none, completed_at := none }]
    responses := [{ id := 9, session_id := 5, question_id := 2, answer := none }]
    next_id := 50 }

/-- C10 (counterexample): gating question 2 of session 5 has a stored
Response whose answer is null, yet `complete_session` returns the
SCREENING_FAILED outcome instead of raising: the loop breaks at
unanswered question 1 before ever reading the null answer. -/
theorem null_answer_shielded_completes :
    ((responsesOf shieldDB 5).map (fun r => (r.question_id, r.answer))) = [(2, none)] ∧
    ((yesNoQuestions shieldDB 1).map (fun q => q.id)) = [1, 2] ∧
    (complete_session shieldDB 0 5).2 = Except.ok "SCREENING_FAILED" := by decide

theorem evalGates_append_of_pass (rs : List Response) :
    ∀ (pre rest : List Question), (∀ p ∈ pre, gatePass rs p = true) →
      evalGates rs (pre ++ rest) = evalGates rs rest
  | [], _, _ => rfl
  | p :: pre, rest, hpre => by
    have hp := hpre p (List.mem_cons_self p pre)
    unfold gatePass at hp
    cases hfind : rs.find? (fun r => r.question_id == p.id) with
    | none => rw [hfind] at hp; simp at hp
    | some r =>
      rw [hfind] at hp
      simp only [Option.map_some', Option.getD_some, answerYes] at hp
      cases hans : r.answer with
      | none => rw [hans] at hp; simp at hp
      | some a =>
        rw [hans] at hp
        simp at hp
        simp only [List.cons_append, evalGates, hfind, hans]
        rw [if_pos (by simp [hp])]
        exact evalGates_append_of_pass rs pre rest
          (fun x hx => hpre x (List.mem_cons_of_mem p hx))

/-- C10 (amended): `complete_session` raises the unhandled internal
error (the AttributeError from `None.lower()`) precisely when the
evaluation loop reaches a null-answered response: if every gating
question before `q` passes and `q`'s first stored response carries a
null answer, completion aborts with INTERNAL and commits nothing; a
null answer hidden behind an earlier failing gate is never read and
the session completes REJECTED instead. -/
theorem complete_crashes_on_first_null_gate (db : DB) (now sid : Nat)
    (s : ResponseSession) (q : Question) (r : Response)
    (pre post : List Question)
    (hs : findSession db sid = some s)
    (ha : (findApplication db s.application_id).isSome)
    (hq : (findQuestionSet db s.set_id).isSome)
    (hsplit : yesNoQuestions db s.set_id = pre ++ q :: post)
    (hpre : ∀ p ∈ pre, gatePass (responsesOf db sid) p = true)
    (hfound : (responsesOf db sid).find? (fun x => x.question_id == q.id) = some r)
    (hnull : r.answer = none) :
    complete_session db now sid = (db, Except.error ApiError.internal) := by
  have hE : evalGates (responsesOf db sid) (yesNoQuestions db s.set_id) = .error () := by
    rw [hsplit, evalGates_append_of_pass (responsesOf db sid) pre (q :: post) hpre]
    simp only [evalGates, hfound, hnull]
  cases hA : findApplication db s.application_id with
  | none => rw [hA] at ha; simp at ha
  | some a =>
    cases hQ : findQuestionSet db s.set_id with
    | none => rw [hQ] at hq; simp at hq
    | some qset =>
      simp only [complete_session, hs, hA, hQ, hE]

/-- The gating question of `nullFirstDB`. -/
def nullQ : Question :=
  { id := 1, set_id := 1, question_text := "Visa?"
    options := some "Yes,No", question_type := "mcq_single", is_required := true }

/-- The null-answered response of `nullFirstDB`. -/
def nullResp : Response :=
  { id := 9, session_id := 5, question_id := 1, answer := none }

/-- The session of `nullFirstDB`. -/
def nullSession : ResponseSession :=
  { id := 5, application_id := 1, set_id := 1
    status := InterviewStatus.IN_PROGRESS, result := none, completed_at := none }

/-- Database whose single gating question's stored response has a null
answer. -/
def nullFirstDB : DB :=
  { jobs := [{ id := 1, title := "Backend Engineer" }]
    candidates := []
    applications := [{ id := 1, job_id := 1, candidate_id := 1
                       status := ApplicationStatus.SOURCED }]
    question_sets := [{ id := 1, job_id := 1, name := "Prescreening" }]
    questions := [nullQ]
    sessions := [nullSession]
    responses := [nullResp]
    next_id := 50 }

theorem complete_crashes_on_first_null_gate_witness :
    ((findSession nullFirstDB 5 = some nullSession)
      ∧ (findApplication nullFirstDB nullSession.application_id).isSome
      ∧ (findQuestionSet nullFirstDB nullSession.set_id).isSome
      ∧ yesNoQuestions nullFirstDB 1 = [] ++ nullQ :: []
      ∧ ((responsesOf nullFirstDB 5).find? (fun x => x.question_id == nullQ.id) = some nullResp)
      ∧ nullResp.answer = none)
    ∧ complete_session nullFirstDB 0 5 = (nullFirstDB, Except.error ApiError.internal) :=
  ⟨⟨by decide, by decide, by decide, by decide, by decide, by decide⟩,
   complete_crashes_on_first_null_gate nullFirstDB 0 5 nullSession nullQ nullResp [] []
     (by decide) (by decide) (by decide) (by decide)
     (fun p hp => absurd hp (List.not_mem_nil p)) (by decide) (by decide)⟩
